import Mathlib

/-!
Verification development for the nuitka_config repository: a shallow
embedding, in Lean, of the configuration-to-command-line translator
(serializers.py, models.py, builder.py, main.py, utils/platform_tools.py),
together with theorems settling the specification claims about it.

Conventions of the embedding:
* Python strings are `String`; `pathlib.Path` values are carried as their
  rendered string (the development assumes a POSIX host, on which
  `str(path)` and `path.as_posix()` coincide for the paths at hand).
* Python truthiness is evaluated at the call boundary and passed as
  `Bool`, or expressed by `Option` types (`none` models `None`).
* Fallible Python code returns `Except PyExc`.
-/

/-- Python exception values surfaced by the embedded code. -/
inductive PyExc where
  | importError (msg : String)
  | attributeError (msg : String)
  | typeError
  deriving DecidableEq, Repr

/-- A dynamically-typed Python value as the serializers dispatch on it:
an enumeration constant (carried as its underlying string value), a
`pathlib.Path` (carried in rendered POSIX form), or any other value
(carried as its literal string form). -/
inductive PyVal where
  | enum (v : String)
  | path (p : String)
  | str (s : String)
  deriving DecidableEq, Repr

/-- The default element transform of `iterable_serializer` (serializers.py
lines 25-29): enumeration constant to its underlying value, path to its
forward-slash form, anything else passed through literally. -/
def PyVal.transformDefault : PyVal → String
  | .enum v => v
  | .path p => p
  | .str s => s

/-- serializers.py `direct_serializer`: unwraps an enumeration constant to
its underlying value and emits the single fragment `--<value>`. -/
def direct_serializer (value : PyVal) : List String :=
  ["--" ++ value.transformDefault]

/-- serializers.py `enum_serializer cli_name`: emits the single fragment
`--cli_name=<value.value>`; the caller passes the enumeration constant's
underlying string value. -/
def enum_serializer (cli_name : String) (value : String) : List String :=
  ["--" ++ cli_name ++ "=" ++ value]

/-- serializers.py `iterable_serializer cli_name value_transform`: `None`
or an empty sequence (both falsy, line 23) emit nothing; otherwise one
fragment `--cli_name=<transform(v)>` per element, in sequence order,
using the supplied transform or the default one. -/
def iterable_serializer (cli_name : String)
    (value_transform : Option (PyVal → String))
    (value : Option (List PyVal)) : List String :=
  match value with
  | none => []
  | some xs =>
    if xs = [] then []
    else
      let transform := value_transform.getD PyVal.transformDefault
      xs.map (fun v => "--" ++ cli_name ++ "=" ++ transform v)

/-- serializers.py `bool_flag_serializer cli_name` (lines 33-38): a truthy
value emits the single fragment written in the source as the f-string
lacking braces around its placeholder, hence the LITERAL text
`--cli_name` whatever `cli_name` was passed; a falsy value emits nothing.
The caller's Python truthiness is passed as the `truthy` Bool. -/
def bool_flag_serializer (cli_name : String) (truthy : Bool) : List String :=
  if truthy then ["--cli_name"] else []

section StringHelpers

/-- Executable prefix test on character lists. -/
def isPrefixB : List Char → List Char → Bool
  | [], _ => true
  | _ :: _, [] => false
  | a :: as, b :: bs => a = b && isPrefixB as bs

/-- Executable contiguous-substring test on character lists: the model
of Python's `in` operator on strings. -/
def isInfixB (n : List Char) : List Char → Bool
  | [] => isPrefixB n []
  | c :: t => isPrefixB n (c :: t) || isInfixB n t

/-- ASCII lowercasing of one character (the model of `str.lower` on the
platform names at hand). -/
def lowerChar (c : Char) : Char :=
  if c.toNat ≥ 65 ∧ c.toNat ≤ 90 then Char.ofNat (c.toNat + 32) else c

/-- Lowercasing of a string, character by character. -/
def strToLower (s : String) : String :=
  ⟨s.data.map lowerChar⟩

/-- A string `needle` is "named in" / "referenced by" a string `hay` when
it occurs contiguously inside `hay`. -/
def namedIn (needle hay : String) : Prop :=
  isInfixB needle.data hay.data = true

instance (needle hay : String) : Decidable (namedIn needle hay) :=
  inferInstanceAs (Decidable (isInfixB needle.data hay.data = true))

end StringHelpers

namespace Models

/-- models.py `PyFlag` (StrEnum): Python interpreter flags. -/
inductive PyFlag where
  | no_site | static_hashes | no_warnings | no_asserts
  | no_docstrings | unbuffered | isolated | package_mode
  deriving DecidableEq, Repr

/-- Underlying string value of each `PyFlag` constant. -/
def PyFlag.value : PyFlag → String
  | .no_site => "-s"
  | .static_hashes => "static_hashes"
  | .no_warnings => "no_warnings"
  | .no_asserts => "no_asserts"
  | .no_docstrings => "no_docstrings"
  | .unbuffered => "-u"
  | .isolated => "isolated"
  | .package_mode => "-m"

/-- models.py `CacheChoice` (StrEnum). -/
inductive CacheChoice where
  | all | ccache | bytecode | compression | dll_dependencies
  deriving DecidableEq, Repr

/-- Underlying string value of each `CacheChoice` constant. -/
def CacheChoice.value : CacheChoice → String
  | .all => "all"
  | .ccache => "ccache"
  | .bytecode => "bytecode"
  | .compression => "compression"
  | .dll_dependencies => "dll-dependencies"

/-- models.py `WindowsConsoleMode` (StrEnum). -/
inductive WindowsConsoleMode where
  | force | disable | attach | hide
  deriving DecidableEq, Repr

/-- Underlying string value of each `WindowsConsoleMode` constant. -/
def WindowsConsoleMode.value : WindowsConsoleMode → String
  | .force => "force"
  | .disable => "disable"
  | .attach => "attach"
  | .hide => "hide"

/-- models.py `MacArchTarget` (StrEnum). -/
inductive MacArchTarget where
  | limit | native
  deriving DecidableEq, Repr

/-- Underlying string value of each `MacArchTarget` constant. -/
def MacArchTarget.value : MacArchTarget → String
  | .limit => "limit"
  | .native => "native"

/-- models.py `MacAppMode` (StrEnum). -/
inductive MacAppMode where
  | gui | ui_element | background
  deriving DecidableEq, Repr

/-- Underlying string value of each `MacAppMode` constant. -/
def MacAppMode.value : MacAppMode → String
  | .gui => "gui"
  | .ui_element => "ui-element"
  | .background => "background"

/-- models.py `MacMultipleInstance` (StrEnum). -/
inductive MacMultipleInstance where
  | off | prevent
  deriving DecidableEq, Repr

/-- Underlying string value of each `MacMultipleInstance` constant. -/
def MacMultipleInstance.value : MacMultipleInstance → String
  | .off => "off"
  | .prevent => "LSMultipleInstancesProhibited"

/-- models.py `CompilerChoice` (StrEnum). -/
inductive CompilerChoice where
  | clang | mingw64 | msvc
  deriving DecidableEq, Repr

/-- Underlying string value of each `CompilerChoice` constant. -/
def CompilerChoice.value : CompilerChoice → String
  | .clang => "clang"
  | .mingw64 => "mingw64"
  | .msvc => "msvc"

/-- models.py `LTOChoice` (StrEnum). -/
inductive LTOChoice where
  | yes | no | auto
  deriving DecidableEq, Repr

/-- Underlying string value of each `LTOChoice` constant. -/
def LTOChoice.value : LTOChoice → String
  | .yes => "yes"
  | .no => "no"
  | .auto => "auto"

/-- models.py `BuildMode` (StrEnum, lines 1227-1255): the symbolic build
modes; the `default` constant carries the underlying value
`accelerated`, and `dll` carries the placeholder text from the source. -/
inductive BuildMode where
  | standalone | onefile | module | default | dll
  deriving DecidableEq, Repr

/-- Underlying string value of each `BuildMode` constant. -/
def BuildMode.value : BuildMode → String
  | .standalone => "standalone"
  | .onefile => "onefile"
  | .module => "module"
  | .default => "accelerated"
  | .dll => "NotImplementedError"

/-- models.py `PythonControls`: `debug_build` (bool_flag_serializer
"python-debug", default None), `py_flags` (iterable_serializer
"python-flag", default None), `static_lib` (cli "static-libpython",
default None). -/
structure PythonControls where
  debug_build : Option Bool := none
  py_flags : Option (List PyVal) := none
  static_lib : Option String := none
  deriving DecidableEq, Repr

/-- models.py `Packages`: three iterable-serialized list fields and the
bool-flag `follow_imports` (default False). -/
structure Packages where
  include_packages : Option (List PyVal) := none
  include_modules : Option (List PyVal) := none
  nofollow_import_to : Option (List PyVal) := none
  follow_imports : Bool := false
  deriving DecidableEq, Repr

/-- models.py `OneFileControl`: three cli-directive fields (with
`grace_time_ms` an int defaulting to 5000) and three bool-flag fields. -/
structure OneFileControl where
  temp_dir : Option String := none
  cached_dir : Option String := none
  grace_time_ms : Int := 5000
  no_compression : Bool := false
  as_archive : Bool := false
  no_dll : Bool := false
  deriving DecidableEq, Repr

/-- models.py `DataFiles`: five iterable-serialized list fields. -/
structure DataFiles where
  include_package_data : Option (List PyVal) := none
  include_data_files : Option (List PyVal) := none
  include_data_dirs : Option (List PyVal) := none
  no_include_data_files : Option (List PyVal) := none
  include_onefile_external_data : Option (List PyVal) := none
  deriving DecidableEq, Repr

/-- models.py `DLLFileControl`: one iterable-serialized list field. -/
structure DLLFileControl where
  noinclude_dlls : Option (List PyVal) := none
  deriving DecidableEq, Repr

/-- models.py `NuitkaWarningControl`: three bool-flag fields. -/
structure NuitkaWarningControl where
  warn_implicit_exceptions : Bool := false
  warn_unusual_code : Bool := false
  assume_yes_for_downloads : Bool := false
  deriving DecidableEq, Repr

/-- models.py `PostCompilation` (lines 389-413): bool-flag fields `run`
(bool_flag_serializer "run", default False) and `debugger`. -/
structure PostCompilation where
  run : Bool := false
  debugger : Bool := false
  deriving DecidableEq, Repr

/-- models.py `OutputChoices`: two cli-directive fields and three
bool-flag fields. -/
structure OutputChoices where
  file_name : Option String := none
  output_dir : Option String := none
  remove_output : Bool := false
  no_pyi_file : Bool := false
  no_pyi_stubs : Bool := false
  deriving DecidableEq, Repr

/-- models.py `DeploymentControl`: one cli-directive field (the bare
class attribute `no_deployment_flag` is not a dataclass field and is
not walked by reflective field iteration). -/
structure DeploymentControl where
  deployment : Option String := none
  deriving DecidableEq, Repr

/-- models.py `EnvControl`: one iterable-serialized list field. -/
structure EnvControl where
  force_envs : Option (List PyVal) := none
  deriving DecidableEq, Repr

/-- models.py `Debug`: five bool-flag fields and the cli-directive
`xml` path field. -/
structure Debug where
  debug : Bool := false
  disable_c_warnings : Bool := false
  unstripped : Bool := false
  trace_execution : Bool := false
  xml : Option String := none
  low_memory : Bool := false
  deriving DecidableEq, Repr

/-- models.py `CacheControl`: two iterable-serialized list fields. -/
structure CacheControl where
  disable_caches : Option (List PyVal) := none
  clean_cache : Option (List PyVal) := none
  deriving DecidableEq, Repr

/-- models.py `TracingFeatures` (bare class attributes
`report_user_provided` / `report_template` are not dataclass fields). -/
structure TracingFeatures where
  report_filename : Option String := none
  report_diffable : Option String := none
  quiet : Bool := false
  show_scons : Bool := false
  no_progressbar : Bool := false
  show_memory : Bool := false
  show_modules_output : Option String := none
  verbose : Bool := false
  verbose_output : Option String := none
  deriving DecidableEq, Repr

/-- models.py `WindowsOSControl`. -/
structure WindowsOSControl where
  console_mode : WindowsConsoleMode := .force
  icon_from_ico : Option String := none
  icon_from_exe : Option String := none
  slash_screen : Option String := none
  uac_admin : Bool := false
  uac_uiaccess : Bool := false
  deriving DecidableEq, Repr

/-- models.py `MacOSControls` (bare class attributes `sign_identity`,
`sign_notarization` and `protected_resource` are not dataclass
fields). -/
structure MacOSControls where
  create_app_bundle : Bool := false
  target_arch : MacArchTarget := .native
  app_icon : Option String := none
  signed_app_name : Option String := none
  app_name : Option String := none
  app_mode : MacAppMode := .gui
  prohibit_multiple_instance : Option MacMultipleInstance := none
  app_version : Option String := none
  deriving DecidableEq, Repr

/-- models.py `LinuxOSControls`. -/
structure LinuxOSControls where
  icon_path : Option String := none
  deriving DecidableEq, Repr

/-- The union type of `OSControls.os_specific` (models.py lines
1020-1028): exactly one of the three platform-shaped variants. -/
inductive OSVariant where
  | windows (w : WindowsOSControl)
  | mac (m : MacOSControls)
  | linux (l : LinuxOSControls)
  deriving DecidableEq, Repr

/-- models.py `OSControls`: two cli-directive fields and the
platform-resolved `os_specific` nested group (or `None`). -/
structure OSControls where
  force_stdout : Option String := none
  force_stderr : Option String := none
  os_specific : Option OSVariant := none
  deriving DecidableEq, Repr

/-- models.py `BinaryVersionInfo`: seven cli-directive string fields. -/
structure BinaryVersionInfo where
  company_name : Option String := none
  product_name : Option String := none
  file_version : Option String := none
  product_version : Option String := none
  file_description : Option String := none
  copyright_text : Option String := none
  trademark_text : Option String := none
  deriving DecidableEq, Repr

/-- The runtime value of `CCompilerControl.compiler`
(`CompilerChoice | str | None`). -/
inductive CompilerVal where
  | choice (c : CompilerChoice)
  | lit (s : String)
  deriving DecidableEq, Repr

/-- View of a `CompilerVal` as the dynamically-typed value handed to
`direct_serializer` (an enumeration constant or a plain string). -/
def CompilerVal.toPyVal : CompilerVal → PyVal
  | .choice c => .enum c.value
  | .lit s => .str s

/-- models.py `CCompilerControl`: `compiler` (direct_serializer, default
None), `jobs` (cli "jobs", default None), `lto` (enum_serializer "lto",
default `LTOChoice.auto`). -/
structure CCompilerControl where
  compiler : Option CompilerVal := none
  jobs : Option Int := none
  lto : LTOChoice := .auto
  deriving DecidableEq, Repr

/-- models.py `PluginControl`: two iterable-serialized list fields. -/
structure PluginControl where
  use_plugins : Option (List PyVal) := none
  disable_plugins : Option (List PyVal) := none
  deriving DecidableEq, Repr

/-- The runtime value of `NuitkaConfig.extras` (`str | list[str]`,
default the empty string). -/
inductive ExtrasVal where
  | str (s : String)
  | list (xs : List String)
  deriving DecidableEq, Repr

/-- The build-mode slot of the root configuration: either one of the
`BuildMode` symbolic constants (the declared type) or a literal
override string (the overlay's first rule in the specification
distinguishes the two). -/
inductive BuildModeVal where
  | const (m : BuildMode)
  | literal (s : String)
  deriving DecidableEq, Repr

/-- models.py `NuitkaConfig` (lines 1257-1283): the root configuration,
fields in declaration order. `entry_file` defaults to `__main__.py`;
`build_mode` defaults to the `default` (accelerated) sentinel;
`one_file_options` defaults to None; every other group defaults to its
group's default instance; `os.os_specific` is platform-resolved at
construction (see `OSControls.defaultFor`), here carried as data. -/
structure NuitkaConfig where
  entry_file : String := "__main__.py"
  build_mode : BuildModeVal := .const .default
  one_file_options : Option OneFileControl := none
  datas : DataFiles := {}
  dlls : DLLFileControl := {}
  packages : Packages := {}
  python : PythonControls := {}
  plugins : PluginControl := {}
  compiler : CCompilerControl := {}
  post_compile : PostCompilation := {}
  os : OSControls := {}
  binary_versioning : BinaryVersionInfo := {}
  output : OutputChoices := {}
  deployment : DeploymentControl := {}
  env : EnvControl := {}
  debug : Debug := {}
  caching : CacheControl := {}
  tracing : TracingFeatures := {}
  nuk_warns : NuitkaWarningControl := {}
  extras : ExtrasVal := .str ""
  deriving DecidableEq, Repr

end Models

/-- utils/platform_tools.py `get_os`: lowercases the host system name
(the `platform.system()` string, here a parameter) and classifies it by
substring containment into one of `windows`, `mac`, `linux`, `unknown`. -/
def get_os (system : String) : String :=
  if isInfixB "windows".data (strToLower system).data then "windows"
  else if isInfixB "darwin".data (strToLower system).data then "mac"
  else if isInfixB "linux".data (strToLower system).data then "linux"
  else "unknown"

/-- utils/platform_tools.py `pick_for_platform`: returns the option of
the detected platform when it is not None, falling back to `default`
(which itself defaults to None) otherwise. -/
def pick_for_platform {α : Type} (windows_option mac_option linux_option
    default : Option α) (system : String) : Option α :=
  let os := get_os system
  if os = "windows" then
    match windows_option with
    | some w => some w
    | none => default
  else if os = "mac" then
    match mac_option with
    | some m => some m
    | none => default
  else if os = "linux" then
    match linux_option with
    | some l => some l
    | none => default
  else default

namespace Models

/-- The three dataclass constructors handed to `pick_for_platform` by the
`os_specific` default factory (models.py lines 1020-1028). -/
inductive OSKind where
  | windows | mac | linux
  deriving DecidableEq, Repr

/-- Calling the picked dataclass constructor with no arguments yields
that variant populated with its declared defaults. -/
def OSKind.instantiate : OSKind → OSVariant
  | .windows => .windows {}
  | .mac => .mac {}
  | .linux => .linux {}

/-- models.py `OSControls` default construction on a host whose
`platform.system()` string is `system`: the `os_specific` default
factory calls the value returned by `pick_for_platform`; when no
platform matched, that value is None and calling it raises a
TypeError. -/
def OSControls.defaultFor (system : String) : Except PyExc OSControls :=
  match pick_for_platform (some OSKind.windows) (some OSKind.mac)
      (some OSKind.linux) none system with
  | some kind => .ok { os_specific := some kind.instantiate }
  | none => .error .typeError

end Models

section Engine

open Models

/-- Modelled from the spec: the generic fallback used for a field that
carries a flag-name ("cli") directive and no serializer (spec section
4.1); the flattening engine that consumes it is absent from src (main.py
imports a `serialize_config` that is defined nowhere). A null value
emits nothing; otherwise one fragment `--name=<rendered value>`, with
paths in forward-slash form and other scalars via `str(value)` (the
caller passes the rendered string; integers are rendered with
`toString`). -/
def cli_fallback (name : String) (value : Option String) : List String :=
  match value with
  | none => []
  | some s => ["--" ++ name ++ "=" ++ s]

/-- Python truthiness of an optional boolean field (`None` is falsy). -/
def pyTruthy : Option Bool → Bool
  | some b => b
  | none => false

/-- Modelled from the spec: depth-first flattening of `PythonControls`,
fields in declaration order, each rendered by its declared directive
(metadata in models.py lines 30-77). -/
def flattenPythonControls (g : PythonControls) : List String :=
  bool_flag_serializer "python-debug" (pyTruthy g.debug_build)
  ++ iterable_serializer "python-flag" none g.py_flags
  ++ cli_fallback "static-libpython" g.static_lib

/-- Modelled from the spec: flattening of `Packages` (models.py lines
83-141). -/
def flattenPackages (g : Packages) : List String :=
  iterable_serializer "include-package" none g.include_packages
  ++ iterable_serializer "include-module" none g.include_modules
  ++ iterable_serializer "nofollow-import-to" none g.nofollow_import_to
  ++ bool_flag_serializer "follow-imports" g.follow_imports

/-- Modelled from the spec: flattening of `OneFileControl` (models.py
lines 147-227). -/
def flattenOneFileControl (g : OneFileControl) : List String :=
  cli_fallback "onefile-tempdir-spec" g.temp_dir
  ++ cli_fallback "onefile-cache-mode" g.cached_dir
  ++ cli_fallback "onefile-child-grace-time" (some (toString g.grace_time_ms))
  ++ bool_flag_serializer "onefile-no-compression" g.no_compression
  ++ bool_flag_serializer "onefile-as-archive" g.as_archive
  ++ bool_flag_serializer "onefile-no-dll" g.no_dll

/-- Modelled from the spec: flattening of `DataFiles` (models.py lines
234-323). -/
def flattenDataFiles (g : DataFiles) : List String :=
  iterable_serializer "include-package-data" none g.include_package_data
  ++ iterable_serializer "include-data-files" none g.include_data_files
  ++ iterable_serializer "include-data-dir" none g.include_data_dirs
  ++ iterable_serializer "noinclude-data-files" none g.no_include_data_files
  ++ iterable_serializer "include-onefile-external-data" none
      g.include_onefile_external_data

/-- Modelled from the spec: flattening of `DLLFileControl` (models.py
lines 329-342). -/
def flattenDLLFileControl (g : DLLFileControl) : List String :=
  iterable_serializer "noinclude-dlls" none g.noinclude_dlls

/-- Modelled from the spec: flattening of `NuitkaWarningControl`
(models.py lines 348-383). -/
def flattenNuitkaWarningControl (g : NuitkaWarningControl) : List String :=
  bool_flag_serializer "warn-implicit-exceptions" g.warn_implicit_exceptions
  ++ bool_flag_serializer "warn-unusual-code" g.warn_unusual_code
  ++ bool_flag_serializer "assume-yes-for-downloads" g.assume_yes_for_downloads

/-- Modelled from the spec: flattening of `PostCompilation` (models.py
lines 389-413). -/
def flattenPostCompilation (g : PostCompilation) : List String :=
  bool_flag_serializer "run" g.run
  ++ bool_flag_serializer "debugger" g.debugger

/-- Modelled from the spec: flattening of `OutputChoices` (models.py
lines 420-485). -/
def flattenOutputChoices (g : OutputChoices) : List String :=
  cli_fallback "output-filename" g.file_name
  ++ cli_fallback "output-dir" g.output_dir
  ++ bool_flag_serializer "remove-output" g.remove_output
  ++ bool_flag_serializer "no-pyi-file" g.no_pyi_file
  ++ bool_flag_serializer "no-pyi-stubs" g.no_pyi_stubs

/-- Modelled from the spec: flattening of `DeploymentControl` (models.py
lines 491-510). -/
def flattenDeploymentControl (g : DeploymentControl) : List String :=
  cli_fallback "deployment" g.deployment

/-- Modelled from the spec: flattening of `EnvControl` (models.py lines
515-526). -/
def flattenEnvControl (g : EnvControl) : List String :=
  iterable_serializer "force-runtime-environment-variable" none g.force_envs

/-- Modelled from the spec: flattening of `Debug` (models.py lines
531-605). -/
def flattenDebug (g : Debug) : List String :=
  bool_flag_serializer "debug" g.debug
  ++ bool_flag_serializer "no-debug-c-warnings" g.disable_c_warnings
  ++ bool_flag_serializer "unstripped" g.unstripped
  ++ bool_flag_serializer "trace-execution" g.trace_execution
  ++ cli_fallback "xml" g.xml
  ++ bool_flag_serializer "low-memory" g.low_memory

/-- Modelled from the spec: flattening of `CacheControl` (models.py
lines 619-640). -/
def flattenCacheControl (g : CacheControl) : List String :=
  iterable_serializer "disable-cache" none g.disable_caches
  ++ iterable_serializer "clean-cache" none g.clean_cache

/-- Modelled from the spec: flattening of `TracingFeatures` (models.py
lines 646-758). -/
def flattenTracingFeatures (g : TracingFeatures) : List String :=
  cli_fallback "report" g.report_filename
  ++ cli_fallback "report-diffable" g.report_diffable
  ++ bool_flag_serializer "quiet" g.quiet
  ++ bool_flag_serializer "show-scons" g.show_scons
  ++ bool_flag_serializer "no-progressbar" g.no_progressbar
  ++ bool_flag_serializer "show-memory" g.show_memory
  ++ cli_fallback "show-modules-output" g.show_modules_output
  ++ bool_flag_serializer "verbose" g.verbose
  ++ cli_fallback "verbose-output" g.verbose_output

/-- Modelled from the spec: flattening of `WindowsOSControl` (models.py
lines 780-832). -/
def flattenWindowsOSControl (g : WindowsOSControl) : List String :=
  enum_serializer "windows-console-mode" g.console_mode.value
  ++ cli_fallback "windows-icon-from-ico" g.icon_from_ico
  ++ cli_fallback "windows-icon-from-exe" g.icon_from_exe
  ++ cli_fallback "onefile-windows-splash-screen" g.slash_screen
  ++ bool_flag_serializer "windows-uac-admin" g.uac_admin
  ++ bool_flag_serializer "windows-uac-uiaccess" g.uac_uiaccess

/-- Modelled from the spec: flattening of `MacOSControls` (models.py
lines 854-964). -/
def flattenMacOSControls (g : MacOSControls) : List String :=
  bool_flag_serializer "macos-create-app-bundle" g.create_app_bundle
  ++ enum_serializer "macos-target-arch" g.target_arch.value
  ++ cli_fallback "macos-app-icon" g.app_icon
  ++ cli_fallback "macos-signed-app-name" g.signed_app_name
  ++ cli_fallback "macos-app-name" g.app_name
  ++ enum_serializer "macos-app-mode" g.app_mode.value
  ++ (match g.prohibit_multiple_instance with
      | none => []
      | some e => enum_serializer "macos-prohibit-multiple-instances" e.value)
  ++ cli_fallback "macos-app-version" g.app_version

/-- Modelled from the spec: flattening of `LinuxOSControls` (models.py
lines 970-977). -/
def flattenLinuxOSControls (g : LinuxOSControls) : List String :=
  cli_fallback "linux-icon" g.icon_path

/-- Modelled from the spec: flattening of the resolved `os_specific`
variant (a nested group, recursed into). -/
def flattenOSVariant : OSVariant → List String
  | .windows w => flattenWindowsOSControl w
  | .mac m => flattenMacOSControls m
  | .linux l => flattenLinuxOSControls l

/-- Modelled from the spec: flattening of `OSControls` (models.py lines
982-1028). -/
def flattenOSControls (g : OSControls) : List String :=
  cli_fallback "force-stdout-spec" g.force_stdout
  ++ cli_fallback "force-stderr-spec" g.force_stderr
  ++ (match g.os_specific with
      | none => []
      | some v => flattenOSVariant v)

/-- Modelled from the spec: flattening of `BinaryVersionInfo` (models.py
lines 1035-1116). -/
def flattenBinaryVersionInfo (g : BinaryVersionInfo) : List String :=
  cli_fallback "company-name" g.company_name
  ++ cli_fallback "product-name" g.product_name
  ++ cli_fallback "file-version" g.file_version
  ++ cli_fallback "product-version" g.product_version
  ++ cli_fallback "file-description" g.file_description
  ++ cli_fallback "copyright" g.copyright_text
  ++ cli_fallback "trademarks" g.trademark_text

/-- Modelled from the spec: flattening of `CCompilerControl` (models.py
lines 1156-1190). -/
def flattenCCompilerControl (g : CCompilerControl) : List String :=
  (match g.compiler with
   | none => []
   | some v => direct_serializer v.toPyVal)
  ++ cli_fallback "jobs" (g.jobs.map toString)
  ++ enum_serializer "lto" g.lto.value

/-- Modelled from the spec: flattening of `PluginControl` (models.py
lines 1196-1222). -/
def flattenPluginControl (g : PluginControl) : List String :=
  iterable_serializer "enable-plugins" none g.use_plugins
  ++ iterable_serializer "disable-plugins" none g.disable_plugins

/-- Modelled from the spec: the recursive flattening engine (spec
section 4.2) applied to the root configuration, absent from src.
Root fields are visited in declaration order; `entry_file`, `build_mode`
and `extras` carry no directive and are not nested groups, so the
generic walk emits nothing for them (they are the overlay's business);
`one_file_options` and `os.os_specific`, when non-null, are nested
groups and are recursed into in place. -/
def flattenRoot (c : NuitkaConfig) : List String :=
  (match c.one_file_options with
   | none => []
   | some g => flattenOneFileControl g)
  ++ flattenDataFiles c.datas
  ++ flattenDLLFileControl c.dlls
  ++ flattenPackages c.packages
  ++ flattenPythonControls c.python
  ++ flattenPluginControl c.plugins
  ++ flattenCCompilerControl c.compiler
  ++ flattenPostCompilation c.post_compile
  ++ flattenOSControls c.os
  ++ flattenBinaryVersionInfo c.binary_versioning
  ++ flattenOutputChoices c.output
  ++ flattenDeploymentControl c.deployment
  ++ flattenEnvControl c.env
  ++ flattenDebug c.debug
  ++ flattenCacheControl c.caching
  ++ flattenTracingFeatures c.tracing
  ++ flattenNuitkaWarningControl c.nuk_warns

/-- Modelled from the spec: overlay rule 1 (spec section 4.3), build-mode
selection. A literal override string is emitted directly as a bare
flag; a symbolic constant other than the default/accelerated sentinel
is emitted as `--<mode-value>`; the default sentinel emits nothing. -/
def buildModeFrags : BuildModeVal → List String
  | .literal s => ["--" ++ s]
  | .const m => if m = BuildMode.default then [] else ["--" ++ m.value]

/-- Modelled from the spec: overlay rule 2 (spec section 4.3), run-flag
extraction: a bare `--run` fragment when the post-compile run field is
true. -/
def runFrags (g : PostCompilation) : List String :=
  if g.run then ["--run"] else []

/-- Modelled from the spec: overlay rule 4 (spec section 4.3), free-form
extras: an absent (empty-string) value emits nothing; a delimited
string is split on whitespace; a sequence is appended element-wise
verbatim. -/
def extrasFrags : ExtrasVal → List String
  | .str s => if s = "" then [] else (s.splitOn " ").filter (fun t => t ≠ "")
  | .list xs => xs

/-- Modelled from the spec: overlay rule 3 (spec section 4.3), the
derived copy of the root configuration over which the generic pass
runs: the post-compile run field forced back to absent (the build-mode
slot is likewise neutralized, which is inert here because the generic
walk already emits nothing for it). -/
def derivedCopy (c : NuitkaConfig) : NuitkaConfig :=
  { c with post_compile := { c.post_compile with run := false } }

/-- Modelled from the spec: `serialize_config`, the package's
configuration serialization entry point, imported by main.py but
defined nowhere in src; assembled here exactly as spec section 4.3
prescribes: build-mode fragment, then the run fragment, then the
generic flattening of the derived copy, then extras, then the
entry-file positional argument last. -/
def serialize_config (c : NuitkaConfig) : List String :=
  buildModeFrags c.build_mode
  ++ runFrags c.post_compile
  ++ flattenRoot (derivedCopy c)
  ++ extrasFrags c.extras
  ++ [c.entry_file]

end Engine

namespace Models

/-- Modelled from the spec: `BuildResult`, the separate build-result
selector referenced by builder.py (lines 15-17) and re-exported by
the package __init__, but defined nowhere under src; the spec's
scenario section speaks of a "result" left default beside the
standalone/onefile flags, so it is modelled as the three-way choice
{standalone, onefile, default}. -/
inductive BuildResult where
  | standalone | onefile | default
  deriving DecidableEq, Repr

end Models

namespace Builder

/-- The `config.core` record read by builder.py `convert_to_nuitka_args`
(lines 12-18): the entry path (rendered by `str`), the build mode, and
the build result. -/
structure Core where
  entry : String
  mode : Models.BuildMode := .default
  result : Models.BuildResult := .default
  deriving DecidableEq, Repr

/-- The `config.output` record read at lines 21-28. -/
structure Output where
  remove_output : Bool := false
  show_progress : Bool := false
  output_dir : Option String := none
  output_filename : Option String := none
  deriving DecidableEq, Repr

/-- The `config.optimization` record read at lines 31-42; `lto` is
tested only for truthiness, with `None` and `False` alike falsy. -/
structure Optimization where
  lto : Option Bool := none
  enable_assets : Bool := false
  nooptimize : Bool := false
  prefer_source_code : Bool := false
  static_libpython : Bool := false
  deriving DecidableEq, Repr

/-- The `config.parallel` record read at lines 45-46 (`0` is falsy). -/
structure Parallel where
  jobs : Option Int := none
  deriving DecidableEq, Repr

/-- The `config.python` record read at lines 49-51. -/
structure Python where
  flags : Option (List String) := none
  deriving DecidableEq, Repr

/-- The `config.compiler` record read at lines 54-57. -/
structure Compiler where
  backend : Option String := none
  follow_symlinks : Bool := false
  deriving DecidableEq, Repr

/-- The `config.plugins` record read at lines 60-67 (the two list
fields are iterated without a truthiness test). -/
structure Plugins where
  enabled : List String := []
  user_plugins : List String := []
  disable_auto_detection : Bool := false
  trace_plugins : Bool := false
  deriving DecidableEq, Repr

/-- The `config.packages` record read at lines 70-77; the source field
named `include` is spelled `incl` here because `include` is reserved
in Lean. -/
structure Packages where
  incl : List String := []
  exclude : List String := []
  nofollow_imports : Bool := false
  nofollow_to : List String := []
  deriving DecidableEq, Repr

/-- The `config.data` record read at lines 80-83. -/
structure Data where
  include_files : List String := []
  include_dirs : List String := []
  deriving DecidableEq, Repr

/-- The `config.debug` record read at lines 86-95. -/
structure Debug where
  debug_symbols : Bool := false
  unstripped : Bool := false
  trace_execution : Bool := false
  show_memory : Bool := false
  show_modules : Bool := false
  deriving DecidableEq, Repr

/-- The `config.logging` record read at lines 98-101. -/
structure Logging where
  verbose : Bool := false
  quiet : Bool := false
  deriving DecidableEq, Repr

/-- The configuration shape builder.py `convert_to_nuitka_args`
actually dereferences (its annotation says `NuitkaConfig`, but the
attribute accesses match this older layout, not the dataclass declared
in models.py). -/
structure NuitkaConfig where
  core : Core
  output : Output := {}
  optimization : Optimization := {}
  parallel : Parallel := {}
  python : Python := {}
  compiler : Compiler := {}
  plugins : Plugins := {}
  packages : Packages := {}
  data : Data := {}
  debug : Debug := {}
  logging : Logging := {}
  deriving DecidableEq, Repr

/-- builder.py lines 13-14: `--module` exactly when the mode equals the
`module` constant. -/
def modeArgs (core : Core) : List String :=
  if core.mode = Models.BuildMode.module then ["--module"] else []

/-- builder.py lines 15-18: the standalone/onefile flags are driven by
the separate `result` field. -/
def resultArgs (core : Core) : List String :=
  if core.result = Models.BuildResult.standalone then ["--standalone"]
  else if core.result = Models.BuildResult.onefile then ["--onefile"]
  else []

/-- builder.py lines 21-28 (`--- Output ---`). -/
def outputArgs (g : Output) : List String :=
  (if g.remove_output then ["--remove-output"] else [])
  ++ (if g.show_progress then ["--show-progress"] else [])
  ++ (match g.output_dir with
      | some s => if s = "" then [] else ["--output-dir=" ++ s]
      | none => [])
  ++ (match g.output_filename with
      | some s => if s = "" then [] else ["--output-filename=" ++ s]
      | none => [])

/-- builder.py lines 31-42 (`--- Optimization ---`): note the
unconditional else-branch at lines 33-34, emitting `--lto=no` whenever
`lto` is falsy, absent values included. -/
def optimizationArgs (g : Optimization) : List String :=
  (if pyTruthy g.lto then ["--lto=yes"] else ["--lto=no"])
  ++ (if g.enable_assets then ["--enable-asserts"] else [])
  ++ (if g.nooptimize then ["--nooptimize"] else [])
  ++ (if g.prefer_source_code then ["--prefer-source-code"] else [])
  ++ (if g.static_libpython then ["--static-libpython=yes"] else [])

/-- builder.py lines 45-46 (`--- Parallel ---`). -/
def parallelArgs (g : Parallel) : List String :=
  match g.jobs with
  | some n => if n = 0 then [] else ["--jobs=" ++ toString n]
  | none => []

/-- builder.py lines 49-51 (`--- Python ---`). -/
def pythonArgs (g : Python) : List String :=
  match g.flags with
  | some fs => fs.map (fun f => "--python-flag=" ++ f)
  | none => []

/-- builder.py lines 54-57 (`--- Compiler ---`). -/
def compilerArgs (g : Compiler) : List String :=
  (match g.backend with
   | some b => if b = "" then [] else ["--" ++ b]
   | none => [])
  ++ (if g.follow_symlinks then ["--follow-imports"] else [])

/-- builder.py lines 60-67 (`--- Plugins ---`). -/
def pluginsArgs (g : Plugins) : List String :=
  g.enabled.map (fun p => "--enable-plugin=" ++ p)
  ++ g.user_plugins.map (fun u => "--user-plugin=" ++ u)
  ++ (if g.disable_auto_detection then ["--plugin-no-detection"] else [])
  ++ (if g.trace_plugins then ["--trace-plugins"] else [])

/-- builder.py lines 70-77 (`--- Packages ---`). -/
def packagesArgs (g : Packages) : List String :=
  g.incl.map (fun i => "--include-package=" ++ i)
  ++ g.exclude.map (fun e => "--exclude-module=" ++ e)
  ++ (if g.nofollow_imports then ["--nofollow-imports"] else [])
  ++ g.nofollow_to.map (fun n => "--nofollow-import-to=" ++ n)

/-- builder.py lines 80-83 (`--- Data ---`). -/
def dataArgs (g : Data) : List String :=
  g.include_files.map (fun f => "--include-data-files=" ++ f)
  ++ g.include_dirs.map (fun d => "--include-data-dir=" ++ d)

/-- builder.py lines 86-95 (`--- Debug ---`). -/
def debugArgs (g : Debug) : List String :=
  (if g.debug_symbols then ["--debug"] else [])
  ++ (if g.unstripped then ["--unstripped"] else [])
  ++ (if g.trace_execution then ["--trace-execution"] else [])
  ++ (if g.show_memory then ["--show-memory"] else [])
  ++ (if g.show_modules then ["--show-modules"] else [])

/-- builder.py lines 98-101 (`--- Logging ---`). -/
def loggingArgs (g : Logging) : List String :=
  (if g.verbose then ["--verbose"] else [])
  ++ (if g.quiet then ["--quiet"] else [])

/-- builder.py `convert_to_nuitka_args` (lines 8-103): the sequential
`args.append` calls, section by section, as one concatenation. The
very first append, line 12, is `str(config.core.entry)`: the entry
path goes in FIRST, before every flag. (At runtime the function could
not get past line 15 at all, `BuildResult` being an unresolved name in
the module; the embedding resolves it as the spec-modelled
`Models.BuildResult` so that the straight-line emission logic can be
examined.) -/
def convert_to_nuitka_args (c : NuitkaConfig) : List String :=
  [c.core.entry]
  ++ modeArgs c.core
  ++ resultArgs c.core
  ++ outputArgs c.output
  ++ optimizationArgs c.optimization
  ++ parallelArgs c.parallel
  ++ pythonArgs c.python
  ++ compilerArgs c.compiler
  ++ pluginsArgs c.plugins
  ++ packagesArgs c.packages
  ++ dataArgs c.data
  ++ debugArgs c.debug
  ++ loggingArgs c.logging

end Builder

/-- The fixed message of the AttributeError raised by builder.py line
115 when the loaded spec module lacks a `config` variable; it mentions
no path. -/
def specMissingConfigMsg : String :=
  "Spec file must define a variable named \x27config\x27"

/-- What the dynamic import machinery did for a given spec file, as
`load_spec_file` observes it: whether `spec_from_file_location`
produced a spec with a loader, and whether the executed module bound a
`config` variable (and to what). -/
structure SpecEnv where
  specFound : Bool
  hasConfig : Bool
  config : Models.NuitkaConfig := {}
  deriving DecidableEq, Repr

/-- builder.py `load_spec_file` (lines 105-116): an unloadable module
raises `ImportError` with the offending path interpolated into the
message; a loaded module without a `config` variable raises
`AttributeError` with a fixed message; otherwise the module's `config`
object is returned. -/
def load_spec_file (spec_path : String) (env : SpecEnv) :
    Except PyExc Models.NuitkaConfig :=
  if env.specFound = false then
    .error (.importError ("Could not load spec file: " ++ spec_path))
  else if env.hasConfig = false then
    .error (.attributeError specMissingConfigMsg)
  else
    .ok env.config

/-- The names models.py actually exports (its `__all__`, built by the
`@export` decorator, in source order). -/
def models_exported_names : List String :=
  ["PyFlag", "PythonControls", "Packages", "OneFileControl", "DataFiles",
   "DLLFileControl", "NuitkaWarningControl", "PostCompilation",
   "OutputChoices", "DeploymentControl", "EnvControl", "Debug",
   "CacheChoice", "CacheControl", "TracingFeatures", "WindowsConsoleMode",
   "WindowsOSControl", "MacArchTarget", "MacAppMode", "MacMultipleInstance",
   "MacOSControls", "LinuxOSControls", "OSControls", "BinaryVersionInfo",
   "CompilerChoice", "LTOChoice", "CCompilerControl", "PluginControl",
   "BuildMode", "NuitkaConfig"]

/-- The names the package __init__ (lines 5-18) tries to import from
models.py. -/
def init_model_imports : List String :=
  ["NuitkaConfig", "Core", "Output", "Optimization", "Parallel", "Python",
   "Compiler", "Plugins", "Packages", "Data", "Debug", "Logging",
   "BuildMode", "BuildResult", "Compilers"]

/-- Every top-level name defined in any module of the nuitka_config
package (classes, functions and enums of __init__.py, main.py,
builder.py, models.py, serializers.py and utils/). -/
def package_defined_names : List String :=
  models_exported_names ++
  ["run", "convert_to_nuitka_args", "load_spec_file",
   "convert_config_to_args", "parse_args", "setup_logging",
   "detect_nuitka", "normalize_nuitka_cmd", "main",
   "direct_serializer", "path_serializer", "enum_serializer",
   "iterable_serializer", "bool_flag_serializer",
   "export", "get_os", "pick_for_platform", "write_script",
   "get_import_name_from_pkg_name", "split_packages_and_modules",
   "package_names_to_import_names", "read_requirements_packages_only",
   "find_package_path", "collect_submodules"]

/-- Whether executing the package __init__ succeeds: every name it
imports from models.py must exist there. -/
def package_init_ok : Bool :=
  init_model_imports.all (fun n => models_exported_names.contains n)

/-- main.py `convert_config_to_args` (lines 34-37): executes
`from nuitka_config import serialize_config` and applies the imported
function. The import is modelled on CPython's behavior: it first runs
the package __init__ (which itself fails when a name it imports is
missing), then looks the requested attribute up among the package's
definitions; either failure surfaces as an ImportError. -/
def convert_config_to_args (c : Models.NuitkaConfig) :
    Except PyExc (List String) :=
  if package_init_ok = false then
    .error (.importError
      "cannot import name \x27Core\x27 from \x27nuitka_config.models\x27")
  else if package_defined_names.contains "serialize_config" = false then
    .error (.importError
      "cannot import name \x27serialize_config\x27 from \x27nuitka_config\x27")
  else
    .ok (serialize_config c)

/-- C3 counterexample input: the entry file `main.py` is present and
every other field is absent. -/
def c3cfg : Builder.NuitkaConfig := { core := { entry := "main.py" } }

/-- C5 counterexample input: entry `app.py`, every optional field left
absent; in particular `lto` is None. -/
def c5cfg : Builder.NuitkaConfig := { core := { entry := "app.py" } }

/-- Every group of a builder configuration other than `core` holds only
absent / falsy / empty values. -/
def Builder.allOptionalAbsent (c : Builder.NuitkaConfig) : Prop :=
  c.output = {} ∧ c.optimization = {} ∧ c.parallel = {} ∧
  c.python = {} ∧ c.compiler = {} ∧ c.plugins = {} ∧
  c.packages = {} ∧ c.data = {} ∧ c.debug = {} ∧ c.logging = {}

/-- C6 counterexample input: the build-mode field holds the symbolic
constant `standalone` (not the default/accelerated sentinel), the
result field is left default. -/
def c6cfg : Builder.NuitkaConfig :=
  { core := { entry := "main.py", mode := Models.BuildMode.standalone } }

/-- C6 witness input: mode `module` together with result `standalone`. -/
def c6wcfg : Builder.NuitkaConfig :=
  { core := { entry := "m.py", mode := Models.BuildMode.module,
              result := Models.BuildResult.standalone } }

/-- C9 counterexample environment: the module loads but binds no
`config` variable. -/
def c9env : SpecEnv := { specFound := true, hasConfig := false }

/-- C4 counterexample input: post-compile run is true and the free-form
extras sequence contains the literal element `--run`. -/
def c4cfg : Models.NuitkaConfig :=
  { post_compile := { run := true }, extras := .list ["--run"] }

/-- C4 witness input: the default configuration with run set to true. -/
def c4wcfg : Models.NuitkaConfig := { post_compile := { run := true } }

theorem isPrefixB_refl (l : List Char) : isPrefixB l l = true := by
  induction l with
  | nil => rfl
  | cons a as ih => simp [isPrefixB, ih]

theorem isInfixB_append_self (n pre : List Char) :
    isInfixB n (pre ++ n) = true := by
  induction pre with
  | nil =>
    cases n with
    | nil => rfl
    | cons c t => simp [isInfixB, isPrefixB_refl]
  | cons p ps ih => simp [isInfixB, ih]

theorem ne_of_char_mem {a b : String} {c : Char}
    (h1 : c ∈ a.data) (h2 : c ∉ b.data) : a ≠ b := by
  intro he
  exact h2 (he ▸ h1)

/-- A fragment of shape `pre ++ suf` whose fixed prefix contains `=` can
never be the bare flag `--run`. -/
theorem append_ne_run (pre suf : String) (h : '=' ∈ pre.data) :
    pre ++ suf ≠ "--run" := by
  apply ne_of_char_mem (c := '=')
  · rw [String.data_append]
    exact List.mem_append_left _ h
  · decide

/-- C1 (confirmed): `serialize_config` is defined nowhere in the
nuitka_config package, so main.py's `convert_config_to_args`, which
executes `from nuitka_config import serialize_config`, raises an
ImportError for every configuration value (the package __init__ even
fails on its own, its model imports naming classes models.py does not
define). -/
theorem c1_convert_config_to_args_import_error :
    package_defined_names.contains "serialize_config" = false ∧
    ∀ c : Models.NuitkaConfig, ∃ msg,
      convert_config_to_args c = Except.error (PyExc.importError msg) :=
  ⟨by decide, fun _ => ⟨_, rfl⟩⟩

/-- C2 (code_bug): serializers.py line 36 writes the flag as an f-string
without braces around `cli_name`, so the serializer built by
`bool_flag_serializer "run"` maps True to the literal fragment
`--cli_name`, not to `--run` as the claim (and every metadata
declaration in models.py) expects; False still emits nothing. -/
theorem c2_bool_flag_serializer_literal_bug :
    bool_flag_serializer "run" true = ["--cli_name"] ∧
    bool_flag_serializer "run" false = [] ∧
    "--cli_name" ≠ "--" ++ "run" :=
  ⟨rfl, rfl, by decide⟩

/-- C3 (counterexample theorem): the serialized list for `c3cfg` ends
with `--lto=no`, not with the entry fragment. -/
theorem c3_entry_not_last :
    Builder.convert_to_nuitka_args c3cfg = ["main.py", "--lto=no"] ∧
    (Builder.convert_to_nuitka_args c3cfg).getLast? = some "--lto=no" ∧
    "--lto=no" ≠ "main.py" :=
  ⟨rfl, rfl, by decide⟩

/-- C3 (corrected): builder.py line 12 appends `str(config.core.entry)`
before any flag, so the entry-file fragment is always the FIRST element
of the serialized argument list (and, the `--lto` fragment being
emitted unconditionally afterwards, never the last); it carries no flag
prefix but is rendered with `str`, not `as_posix`. -/
theorem c3_entry_first :
    ∀ c : Builder.NuitkaConfig,
      (Builder.convert_to_nuitka_args c).head? = some c.core.entry :=
  fun _ => rfl

/-- C5 (counterexample theorem): with `lto` absent, the output contains
the fragment `--lto=no`, which references the lto flag name, refuting
null-omission as stated. -/
theorem c5_absent_lto_emits :
    c5cfg.optimization.lto = none ∧
    "--lto=no" ∈ Builder.convert_to_nuitka_args c5cfg ∧
    namedIn "--lto" "--lto=no" :=
  ⟨rfl, by decide, by decide⟩

/-- C5 (corrected): null-omission holds for every field except `lto`:
whenever `lto` is falsy (absent included) the fragment `--lto=no` is
emitted (builder.py lines 33-34), and a configuration whose optional
fields are all absent serializes to exactly the entry fragment, the
mode/result flags and that lone `--lto=no` — every other absent field
contributes nothing. -/
theorem c5_null_omission_amended :
    ∀ c : Builder.NuitkaConfig,
      (pyTruthy c.optimization.lto = false →
        "--lto=no" ∈ Builder.convert_to_nuitka_args c) ∧
      (Builder.allOptionalAbsent c →
        Builder.convert_to_nuitka_args c
          = [c.core.entry] ++ Builder.modeArgs c.core
            ++ Builder.resultArgs c.core ++ ["--lto=no"]) := by
  intro c
  constructor
  · intro h
    simp [Builder.convert_to_nuitka_args, Builder.optimizationArgs, h]
  · rintro ⟨h1, h2, h3, h4, h5, h6, h7, h8, h9, h10⟩
    simp [Builder.convert_to_nuitka_args, h1, h2, h3, h4, h5, h6, h7, h8,
      h9, h10, Builder.outputArgs, Builder.optimizationArgs,
      Builder.parallelArgs, Builder.pythonArgs, Builder.compilerArgs,
      Builder.pluginsArgs, Builder.packagesArgs, Builder.dataArgs,
      Builder.debugArgs, Builder.loggingArgs, pyTruthy]

/-- C5 witness: the amended statement discharged on the concrete
configuration `c5cfg`. -/
theorem c5_null_omission_witness :
    "--lto=no" ∈ Builder.convert_to_nuitka_args c5cfg ∧
    Builder.convert_to_nuitka_args c5cfg
      = [c5cfg.core.entry] ++ Builder.modeArgs c5cfg.core
        ++ Builder.resultArgs c5cfg.core ++ ["--lto=no"] :=
  ⟨(c5_null_omission_amended c5cfg).1 rfl,
   (c5_null_omission_amended c5cfg).2
     ⟨rfl, rfl, rfl, rfl, rfl, rfl, rfl, rfl, rfl, rfl⟩⟩

/-- C6 (counterexample theorem): with build mode `standalone` the output
contains no `--standalone` fragment (builder.py only maps the mode
field to `--module`), refuting the claim as stated. -/
theorem c6_standalone_mode_unmapped :
    c6cfg.core.mode = Models.BuildMode.standalone ∧
    c6cfg.core.mode ≠ Models.BuildMode.default ∧
    Builder.convert_to_nuitka_args c6cfg = ["main.py", "--lto=no"] ∧
    "--standalone" ∉ Builder.convert_to_nuitka_args c6cfg :=
  ⟨rfl, by decide, rfl, by decide⟩

/-- C6 (corrected): builder.py splits build-mode handling across two
fields. The mode field maps ONLY the `module` constant to a bare flag
(`--module`); `--standalone` and `--onefile` are driven by the separate
result field (spec-modelled `BuildResult`); any other mode value —
`standalone`, `onefile`, `dll` and the default sentinel included —
emits no mode fragment, and the default result emits no result
fragment. -/
theorem c6_mode_result_amended :
    ∀ c : Builder.NuitkaConfig,
      (c.core.mode = Models.BuildMode.module →
        "--module" ∈ Builder.convert_to_nuitka_args c) ∧
      (c.core.result = Models.BuildResult.standalone →
        "--standalone" ∈ Builder.convert_to_nuitka_args c) ∧
      (c.core.result = Models.BuildResult.onefile →
        "--onefile" ∈ Builder.convert_to_nuitka_args c) ∧
      (c.core.mode ≠ Models.BuildMode.module →
        Builder.modeArgs c.core = []) ∧
      (c.core.result = Models.BuildResult.default →
        Builder.resultArgs c.core = []) := by
  intro c
  refine ⟨fun h => ?_, fun h => ?_, fun h => ?_, fun h => ?_, fun h => ?_⟩
  · simp [Builder.convert_to_nuitka_args, Builder.modeArgs, h]
  · simp [Builder.convert_to_nuitka_args, Builder.resultArgs, h]
  · simp [Builder.convert_to_nuitka_args, Builder.resultArgs, h]
  · simp [Builder.modeArgs, h]
  · simp [Builder.resultArgs, h]

/-- C6 witness: the amended statement discharged on `c6wcfg`. -/
theorem c6_mode_result_witness :
    "--module" ∈ Builder.convert_to_nuitka_args c6wcfg ∧
    "--standalone" ∈ Builder.convert_to_nuitka_args c6wcfg :=
  ⟨(c6_mode_result_amended c6wcfg).1 rfl,
   (c6_mode_result_amended c6wcfg).2.1 rfl⟩

/-- C7 (confirmed): the iterable serializer emits exactly one fragment
`--flag=<transformed element>` per element, in sequence order (the map
characterization fixes both the count and the order), it emits nothing
for an absent or empty sequence, and its default transform sends an
enumeration constant to its underlying value, a path to its
forward-slash form, and any other element to its literal form. -/
theorem c7_iterable_serializer_correct :
    (∀ (n : String) (xs : List PyVal),
      iterable_serializer n none (some xs)
        = xs.map (fun x => "--" ++ n ++ "=" ++ x.transformDefault)) ∧
    (∀ (n : String) (xs : List PyVal),
      (iterable_serializer n none (some xs)).length = xs.length) ∧
    (∀ n : String, iterable_serializer n none none = []) ∧
    (∀ v, PyVal.transformDefault (.enum v) = v) ∧
    (∀ p, PyVal.transformDefault (.path p) = p) ∧
    (∀ s, PyVal.transformDefault (.str s) = s) := by
  have hmap : ∀ (n : String) (xs : List PyVal),
      iterable_serializer n none (some xs)
        = xs.map (fun x => "--" ++ n ++ "=" ++ x.transformDefault) := by
    intro n xs
    cases xs with
    | nil => rfl
    | cons a l => rfl
  exact ⟨hmap, fun n xs => by rw [hmap, List.length_map],
    fun n => rfl, fun v => rfl, fun p => rfl, fun s => rfl⟩

/-- C8 (confirmed): both serialization routines are pure functions of
their configuration input — the source consults no global or mutable
state while serializing — so serializing the same value twice yields
identical argument lists. -/
theorem c8_serialization_deterministic :
    (∀ c : Builder.NuitkaConfig,
      Builder.convert_to_nuitka_args c = Builder.convert_to_nuitka_args c) ∧
    (∀ c : Models.NuitkaConfig, serialize_config c = serialize_config c) :=
  ⟨fun _ => rfl, fun _ => rfl⟩

/-- C9 (counterexample theorem): for the spec path `build.spec.py`, the
missing-variable failure raises an AttributeError whose fixed message
does not name the offending path. -/
theorem c9_missing_config_error_lacks_path :
    load_spec_file "build.spec.py" c9env
      = Except.error (PyExc.attributeError specMissingConfigMsg) ∧
    ¬ namedIn "build.spec.py" specMissingConfigMsg :=
  ⟨rfl, by decide⟩

/-- C9 (corrected): only the module-load failure names the offending
path: it raises ImportError with the path interpolated into the
message; the missing-`config` failure is still fatal but raises
AttributeError with a fixed message that names no path. -/
theorem c9_load_spec_file_errors_amended :
    ∀ (spec_path : String) (env : SpecEnv),
      (env.specFound = false →
        load_spec_file spec_path env
          = Except.error (PyExc.importError
              ("Could not load spec file: " ++ spec_path)) ∧
        namedIn spec_path ("Could not load spec file: " ++ spec_path)) ∧
      (env.specFound = true → env.hasConfig = false →
        load_spec_file spec_path env
          = Except.error (PyExc.attributeError specMissingConfigMsg)) := by
  intro spec_path env
  constructor
  · intro h
    refine ⟨by simp [load_spec_file, h], ?_⟩
    show isInfixB _ _ = true
    rw [String.data_append]
    exact isInfixB_append_self _ _
  · intro h1 h2
    simp [load_spec_file, h1, h2]

/-- C9 witness: the amended statement discharged on the concrete path
`x.spec.py` and the two concrete failure environments. -/
theorem c9_load_spec_file_witness :
    (load_spec_file "x.spec.py" { specFound := false, hasConfig := false }
      = Except.error (PyExc.importError
          ("Could not load spec file: " ++ "x.spec.py"))) ∧
    (load_spec_file "x.spec.py" { specFound := true, hasConfig := false }
      = Except.error (PyExc.attributeError specMissingConfigMsg)) :=
  ⟨((c9_load_spec_file_errors_amended "x.spec.py"
      { specFound := false, hasConfig := false }).1 rfl).1,
   (c9_load_spec_file_errors_amended "x.spec.py"
      { specFound := true, hasConfig := false }).2 rfl rfl⟩

/-- C10 (counterexample theorem): on a host whose `platform.system()`
string is `FreeBSD`, `get_os` classifies the platform as unknown,
`pick_for_platform` falls back to None, and calling it makes default
construction of `OSControls` raise a TypeError — the os_specific field
is not resolved to any of the three variants. -/
theorem c10_unknown_platform_raises :
    get_os "FreeBSD" = "unknown" ∧
    Models.OSControls.defaultFor "FreeBSD" = Except.error PyExc.typeError :=
  ⟨by decide, rfl⟩

/-- C10 (corrected): on every host whose lowercased system name contains
`windows`, `darwin` or `linux`, default construction resolves
`os_specific` to exactly the matching variant (with that variant's
declared defaults) and never to another; every host falls in one of
the four classes, and on an unrecognized host default construction does
not resolve any variant but raises a TypeError. -/
theorem c10_platform_variant_amended :
    ∀ system : String,
      (get_os system = "windows" →
        Models.OSControls.defaultFor system
          = Except.ok { os_specific := some (Models.OSVariant.windows {}) }) ∧
      (get_os system = "mac" →
        Models.OSControls.defaultFor system
          = Except.ok { os_specific := some (Models.OSVariant.mac {}) }) ∧
      (get_os system = "linux" →
        Models.OSControls.defaultFor system
          = Except.ok { os_specific := some (Models.OSVariant.linux {}) }) ∧
      (get_os system = "unknown" →
        Models.OSControls.defaultFor system = Except.error PyExc.typeError) ∧
      (get_os system = "windows" ∨ get_os system = "mac" ∨
        get_os system = "linux" ∨ get_os system = "unknown") := by
  intro system
  refine ⟨fun h => ?_, fun h => ?_, fun h => ?_, fun h => ?_, ?_⟩
  · simp [Models.OSControls.defaultFor, pick_for_platform, h,
      Models.OSKind.instantiate]
  · simp [Models.OSControls.defaultFor, pick_for_platform, h,
      Models.OSKind.instantiate]
  · simp [Models.OSControls.defaultFor, pick_for_platform, h,
      Models.OSKind.instantiate]
  · simp [Models.OSControls.defaultFor, pick_for_platform, h]
  · unfold get_os
    by_cases h1 : isInfixB "windows".data (strToLower system).data = true
    · simp [h1]
    · by_cases h2 : isInfixB "darwin".data (strToLower system).data = true
      · simp [h1, h2]
      · by_cases h3 : isInfixB "linux".data (strToLower system).data = true
        · simp [h1, h2, h3]
        · simp [h1, h2, h3]

/-- C10 witness: the amended statement discharged on the concrete host
string `Linux`. -/
theorem c10_platform_variant_witness :
    Models.OSControls.defaultFor "Linux"
      = Except.ok { os_specific := some (Models.OSVariant.linux {}) } :=
  (c10_platform_variant_amended "Linux").2.2.1 (by decide)

/-- C4 (counterexample theorem): the overlay emits one `--run` and the
extras pass-through appends another, so the output holds two `--run`
fragments, refuting "exactly one in total" as universally stated. -/
theorem c4_run_duplicated_by_extras :
    c4cfg.post_compile.run = true ∧
    serialize_config c4cfg
      = ["--run", "--lto=auto", "--run", "__main__.py"] ∧
    (serialize_config c4cfg).count "--run" = 2 :=
  ⟨rfl, rfl, by decide⟩

theorem notMemAppend {α : Type} {a : α} {l₁ l₂ : List α}
    (h₁ : a ∉ l₁) (h₂ : a ∉ l₂) : a ∉ l₁ ++ l₂ :=
  fun h => (List.mem_append.mp h).elim h₁ h₂

theorem run_notMem_bool_flag (n : String) (b : Bool) :
    "--run" ∉ bool_flag_serializer n b := by
  cases b with
  | false => simp [bool_flag_serializer]
  | true =>
    show "--run" ∉ ["--cli_name"]
    decide

theorem run_notMem_enum (n v : String) :
    "--run" ∉ enum_serializer n v := by
  intro h
  rw [enum_serializer, List.mem_singleton] at h
  refine append_ne_run ("--" ++ n ++ "=") v ?_ h.symm
  rw [String.data_append]
  exact List.mem_append_right _ (by decide)

theorem run_notMem_cli (n : String) (v : Option String) :
    "--run" ∉ cli_fallback n v := by
  cases v with
  | none => simp [cli_fallback]
  | some s =>
    intro h
    rw [cli_fallback, List.mem_singleton] at h
    refine append_ne_run ("--" ++ n ++ "=") s ?_ h.symm
    rw [String.data_append]
    exact List.mem_append_right _ (by decide)

theorem run_notMem_iterable (n : String) (vt : Option (PyVal → String))
    (v : Option (List PyVal)) :
    "--run" ∉ iterable_serializer n vt v := by
  cases v with
  | none => simp [iterable_serializer]
  | some xs =>
    intro h
    rw [iterable_serializer] at h
    by_cases hxs : xs = []
    · rw [if_pos hxs] at h
      exact List.not_mem_nil _ h
    · rw [if_neg hxs] at h
      obtain ⟨x, _, hfx⟩ := List.mem_map.mp h
      refine append_ne_run ("--" ++ n ++ "=") _ ?_ hfx
      rw [String.data_append]
      exact List.mem_append_right _ (by decide)

theorem run_nm_PythonControls (g : Models.PythonControls) :
    "--run" ∉ flattenPythonControls g :=
  notMemAppend (notMemAppend (run_notMem_bool_flag _ _)
    (run_notMem_iterable _ _ _)) (run_notMem_cli _ _)

theorem run_nm_Packages (g : Models.Packages) :
    "--run" ∉ flattenPackages g :=
  notMemAppend (notMemAppend (notMemAppend (run_notMem_iterable _ _ _)
    (run_notMem_iterable _ _ _)) (run_notMem_iterable _ _ _))
    (run_notMem_bool_flag _ _)

theorem run_nm_OneFileControl (g : Models.OneFileControl) :
    "--run" ∉ flattenOneFileControl g :=
  notMemAppend (notMemAppend (notMemAppend (notMemAppend (notMemAppend
    (run_notMem_cli _ _) (run_notMem_cli _ _)) (run_notMem_cli _ _))
    (run_notMem_bool_flag _ _)) (run_notMem_bool_flag _ _))
    (run_notMem_bool_flag _ _)

theorem run_nm_DataFiles (g : Models.DataFiles) :
    "--run" ∉ flattenDataFiles g :=
  notMemAppend (notMemAppend (notMemAppend (notMemAppend
    (run_notMem_iterable _ _ _) (run_notMem_iterable _ _ _))
    (run_notMem_iterable _ _ _)) (run_notMem_iterable _ _ _))
    (run_notMem_iterable _ _ _)

theorem run_nm_DLLFileControl (g : Models.DLLFileControl) :
    "--run" ∉ flattenDLLFileControl g :=
  run_notMem_iterable _ _ _

theorem run_nm_NuitkaWarningControl (g : Models.NuitkaWarningControl) :
    "--run" ∉ flattenNuitkaWarningControl g :=
  notMemAppend (notMemAppend (run_notMem_bool_flag _ _)
    (run_notMem_bool_flag _ _)) (run_notMem_bool_flag _ _)

theorem run_nm_PostCompilation (g : Models.PostCompilation) :
    "--run" ∉ flattenPostCompilation g :=
  notMemAppend (run_notMem_bool_flag _ _) (run_notMem_bool_flag _ _)

theorem run_nm_OutputChoices (g : Models.OutputChoices) :
    "--run" ∉ flattenOutputChoices g :=
  notMemAppend (notMemAppend (notMemAppend (notMemAppend
    (run_notMem_cli _ _) (run_notMem_cli _ _))
    (run_notMem_bool_flag _ _)) (run_notMem_bool_flag _ _))
    (run_notMem_bool_flag _ _)

theorem run_nm_DeploymentControl (g : Models.DeploymentControl) :
    "--run" ∉ flattenDeploymentControl g :=
  run_notMem_cli _ _

theorem run_nm_EnvControl (g : Models.EnvControl) :
    "--run" ∉ flattenEnvControl g :=
  run_notMem_iterable _ _ _

theorem run_nm_Debug (g : Models.Debug) :
    "--run" ∉ flattenDebug g :=
  notMemAppend (notMemAppend (notMemAppend (notMemAppend (notMemAppend
    (run_notMem_bool_flag _ _) (run_notMem_bool_flag _ _))
    (run_notMem_bool_flag _ _)) (run_notMem_bool_flag _ _))
    (run_notMem_cli _ _)) (run_notMem_bool_flag _ _)

theorem run_nm_CacheControl (g : Models.CacheControl) :
    "--run" ∉ flattenCacheControl g :=
  notMemAppend (run_notMem_iterable _ _ _) (run_notMem_iterable _ _ _)

theorem run_nm_TracingFeatures (g : Models.TracingFeatures) :
    "--run" ∉ flattenTracingFeatures g :=
  notMemAppend (notMemAppend (notMemAppend (notMemAppend (notMemAppend
    (notMemAppend (notMemAppend (notMemAppend
    (run_notMem_cli _ _) (run_notMem_cli _ _))
    (run_notMem_bool_flag _ _)) (run_notMem_bool_flag _ _))
    (run_notMem_bool_flag _ _)) (run_notMem_bool_flag _ _))
    (run_notMem_cli _ _)) (run_notMem_bool_flag _ _))
    (run_notMem_cli _ _)

theorem run_nm_WindowsOSControl (g : Models.WindowsOSControl) :
    "--run" ∉ flattenWindowsOSControl g :=
  notMemAppend (notMemAppend (notMemAppend (notMemAppend (notMemAppend
    (run_notMem_enum _ _) (run_notMem_cli _ _)) (run_notMem_cli _ _))
    (run_notMem_cli _ _)) (run_notMem_bool_flag _ _))
    (run_notMem_bool_flag _ _)

theorem run_nm_MacOSControls (g : Models.MacOSControls) :
    "--run" ∉ flattenMacOSControls g := by
  have hpmi : "--run" ∉
      (match g.prohibit_multiple_instance with
       | none => []
       | some e =>
          enum_serializer "macos-prohibit-multiple-instances" e.value) := by
    cases g.prohibit_multiple_instance with
    | none => simp
    | some e => exact run_notMem_enum _ _
  exact notMemAppend (notMemAppend (notMemAppend (notMemAppend
    (notMemAppend (notMemAppend (notMemAppend
    (run_notMem_bool_flag _ _) (run_notMem_enum _ _))
    (run_notMem_cli _ _)) (run_notMem_cli _ _)) (run_notMem_cli _ _))
    (run_notMem_enum _ _)) hpmi) (run_notMem_cli _ _)

theorem run_nm_LinuxOSControls (g : Models.LinuxOSControls) :
    "--run" ∉ flattenLinuxOSControls g :=
  run_notMem_cli _ _

theorem run_nm_OSVariant (v : Models.OSVariant) :
    "--run" ∉ flattenOSVariant v := by
  cases v with
  | windows w => exact run_nm_WindowsOSControl w
  | mac m => exact run_nm_MacOSControls m
  | linux l => exact run_nm_LinuxOSControls l

theorem run_nm_OSControls (g : Models.OSControls) :
    "--run" ∉ flattenOSControls g := by
  have hos : "--run" ∉
      (match g.os_specific with
       | none => []
       | some v => flattenOSVariant v) := by
    cases g.os_specific with
    | none => simp
    | some v => exact run_nm_OSVariant v
  exact notMemAppend (notMemAppend (run_notMem_cli _ _)
    (run_notMem_cli _ _)) hos

theorem run_nm_BinaryVersionInfo (g : Models.BinaryVersionInfo) :
    "--run" ∉ flattenBinaryVersionInfo g :=
  notMemAppend (notMemAppend (notMemAppend (notMemAppend (notMemAppend
    (notMemAppend (run_notMem_cli _ _) (run_notMem_cli _ _))
    (run_notMem_cli _ _)) (run_notMem_cli _ _)) (run_notMem_cli _ _))
    (run_notMem_cli _ _)) (run_notMem_cli _ _)

theorem run_nm_PluginControl (g : Models.PluginControl) :
    "--run" ∉ flattenPluginControl g :=
  notMemAppend (run_notMem_iterable _ _ _) (run_notMem_iterable _ _ _)

/-- No fragment of the generic flattening pass is the bare `--run`
flag, provided the compiler group (whose direct serializer passes its
value through as a bare flag) emits none: every other fragment is
either the constant bool-flag text or a fragment containing `=`. -/
theorem run_notMem_flattenRoot (c : Models.NuitkaConfig)
    (hcomp : "--run" ∉ flattenCCompilerControl c.compiler) :
    "--run" ∉ flattenRoot c := by
  have hofo : "--run" ∉
      (match c.one_file_options with
       | none => []
       | some g => flattenOneFileControl g) := by
    cases c.one_file_options with
    | none => simp
    | some g => exact run_nm_OneFileControl g
  exact notMemAppend (notMemAppend (notMemAppend (notMemAppend
    (notMemAppend (notMemAppend (notMemAppend (notMemAppend
    (notMemAppend (notMemAppend (notMemAppend (notMemAppend
    (notMemAppend (notMemAppend (notMemAppend (notMemAppend
    hofo (run_nm_DataFiles _)) (run_nm_DLLFileControl _))
    (run_nm_Packages _)) (run_nm_PythonControls _))
    (run_nm_PluginControl _)) hcomp) (run_nm_PostCompilation _))
    (run_nm_OSControls _)) (run_nm_BinaryVersionInfo _))
    (run_nm_OutputChoices _)) (run_nm_DeploymentControl _))
    (run_nm_EnvControl _)) (run_nm_Debug _)) (run_nm_CacheControl _))
    (run_nm_TracingFeatures _)) (run_nm_NuitkaWarningControl _)

/-- C4 (corrected): when the post-compile run field is true, the overlay
emits its `--run` fragment exactly once and the generic flattening pass
never emits another one for the run field (the derived copy nulls it;
moreover every generic fragment except the compiler pass-through either
contains `=` or is the buggy constant bool-flag text, so none can spell
`--run`). The output therefore holds exactly one `--run` — unless some
pass-through value spells `--run` itself: an extras element, a compiler
literal, a build-mode literal override, or the entry-file path. -/
theorem c4_run_emitted_once_amended :
    ∀ c : Models.NuitkaConfig,
      c.post_compile.run = true →
      "--run" ∉ buildModeFrags c.build_mode →
      "--run" ∉ flattenCCompilerControl c.compiler →
      "--run" ∉ extrasFrags c.extras →
      c.entry_file ≠ "--run" →
      (serialize_config c).count "--run" = 1 := by
  intro c hrun hbm hcomp hex hentry
  have hrf : runFrags c.post_compile = ["--run"] := by
    simp [runFrags, hrun]
  have hflat : "--run" ∉ flattenRoot (derivedCopy c) :=
    run_notMem_flattenRoot (derivedCopy c) hcomp
  have hent : "--run" ∉ [c.entry_file] := by
    intro h
    exact hentry (List.mem_singleton.mp h).symm
  unfold serialize_config
  rw [List.count_append, List.count_append, List.count_append,
    List.count_append, hrf,
    List.count_eq_zero.mpr hbm, List.count_eq_zero.mpr hflat,
    List.count_eq_zero.mpr hex, List.count_eq_zero.mpr hent]
  decide

/-- C4 witness: the amended statement discharged on `c4wcfg`. -/
theorem c4_run_emitted_once_witness :
    (serialize_config c4wcfg).count "--run" = 1 :=
  c4_run_emitted_once_amended c4wcfg rfl (by decide) (by decide)
    (by decide) (by decide)

-- sanity checks of the embedding on small concrete inputs
example : iterable_serializer "python-flag" none (some [.str "-s", .str "-u"])
    = ["--python-flag=-s", "--python-flag=-u"] := by rfl
example : iterable_serializer "python-flag" none (some []) = [] := by rfl
example : bool_flag_serializer "run" true = ["--cli_name"] := by rfl
example : namedIn "a.py" "file: a.py!" := by decide
example : ¬ namedIn "a.py" "no path here" := by decide
example : get_os "Windows" = "windows" := by decide
example : get_os "Darwin" = "mac" := by decide
example : serialize_config {} = ["--lto=auto", "__main__.py"] := by rfl
